import Mathlib

/-!
Shallow embedding of the cart / product core of the `nuxt-layer-example`
repository: the Zod schemas (`ProductSchema`, `CartItemSchema`), the two
cart store variants (the plain layers store and the validated feature
store), the pure calculation utilities, the storage-hydration path and
the product filter/sort pipeline.  JavaScript numbers are modelled as
exact rationals (ℚ); JavaScript exceptions as `Except String`.
-/

set_option maxHeartbeats 1000000

/-- A raw (unvalidated) product record, as handed to the Zod schema:
every numeric field is an arbitrary JS number (modelled as ℚ), `rating`
is optional. Mirrors the field set of `ProductSchema` in
`layers/shared/app/schemas/product.ts`. -/
structure RawProduct where
  id : String
  name : String
  description : String
  price : ℚ
  category : String
  image : String
  stock : ℚ
  rating : Option ℚ
deriving DecidableEq, Repr

/-- `ProductCategorySchema`: the closed category enumeration
(`z.enum(['electronics','clothing','books','home','sports'])`). -/
def productCategoryCheck (c : String) : Bool :=
  c == "electronics" || c == "clothing" || c == "books" || c == "home" || c == "sports"

/-- Split a character list at the first occurrence of the separator run,
returning the parts before and after it. -/
def breakOnRun (sep : List Char) : List Char → Option (List Char × List Char)
  | [] => if sep.isEmpty then some ([], []) else none
  | c :: rest =>
    if sep.isPrefixOf (c :: rest) then
      some ([], (c :: rest).drop sep.length)
    else
      match breakOnRun sep rest with
      | some (pre, post) => some (c :: pre, post)
      | none => none

/-- Modelled from the spec: the `image` field must be a "valid URL string".
The actual format check is `z.string().url()` inside the zod library,
whose implementation is not part of this repository; it is modelled as
requiring a nonempty scheme, the literal `://` separator and a nonempty
remainder. -/
def isValidURL (s : String) : Bool :=
  match breakOnRun [':', '/', '/'] s.data with
  | some (scheme, rest) => !scheme.isEmpty && !rest.isEmpty
  | none => false

/-- `ProductSchema.safeParse(p).success`, from
`layers/shared/app/schemas/product.ts`: non-empty `id`, `name` of length
1–200, `description` of length 1–2000, `price` a positive integer,
`category` in the enumeration, `image` a valid URL, `stock` a
non-negative integer, optional `rating` in [0, 5]. -/
def productCheck (p : RawProduct) : Bool :=
  1 ≤ p.id.length &&
  (1 ≤ p.name.length && p.name.length ≤ 200) &&
  (1 ≤ p.description.length && p.description.length ≤ 2000) &&
  (p.price.isInt && 0 < p.price) &&
  productCategoryCheck p.category &&
  isValidURL p.image &&
  (p.stock.isInt && 0 ≤ p.stock) &&
  (match p.rating with
   | none => true
   | some r => 0 ≤ r && r ≤ 5)

/-- A cart item of the validated feature store
(`app/features/cart/types/index.ts`): product snapshot, quantity and a
stored `subtotal`. -/
structure CartItemV where
  product : RawProduct
  quantity : ℚ
  subtotal : ℚ
deriving DecidableEq, Repr

/-- The structural part of `CartItemSchema` (the `z.object` before the
`.refine`): a valid product, a positive-integer quantity and a
non-negative-integer subtotal. -/
def cartItemStructCheck (c : CartItemV) : Bool :=
  productCheck c.product &&
  (c.quantity.isInt && 0 < c.quantity) &&
  (c.subtotal.isInt && 0 ≤ c.subtotal)

/-- `CartItemSchema.safeParse(c).success`, from
`app/features/cart/types/index.ts` (schemas/cart): the structural object
checks together with the `.refine` rule
`data.subtotal === data.product.price * data.quantity`. -/
def cartItemCheck (c : CartItemV) : Bool :=
  cartItemStructCheck c && decide (c.subtotal = c.product.price * c.quantity)

/-- A cart item of the plain layers store
(`layers/cart`): the store pushes `{ product, quantity }`, no stored
subtotal. -/
structure CartItemL where
  product : RawProduct
  quantity : ℚ
deriving DecidableEq, Repr

/-! ### Calculations (`app/features/cart/utils/calculations.ts`) -/

/-- `TAX_RATE = 0.1`. -/
def TAX_RATE : ℚ := 1 / 10

/-- `Math.round` of JavaScript on an exact rational: `⌊x + 0.5⌋`. -/
def jsMathRound (x : ℚ) : ℚ := (⌊x + 1 / 2⌋ : ℤ)

/-- `calculateItemSubtotal(price, quantity) = price * quantity`. -/
def calculateItemSubtotal (price quantity : ℚ) : ℚ := price * quantity

/-- `calculateSubtotal(items)`: sum of the stored item subtotals
(`items.reduce((sum, item) => sum + item.subtotal, 0)`). -/
def calculateSubtotal (items : List CartItemV) : ℚ :=
  items.foldl (fun sum item => sum + item.subtotal) 0

/-- `calculateTax(subtotal) = Math.round(subtotal * TAX_RATE)`. -/
def calculateTax (subtotal : ℚ) : ℚ := jsMathRound (subtotal * TAX_RATE)

/-- `calculateTotal(subtotal, tax) = subtotal + tax`. -/
def calculateTotal (subtotal tax : ℚ) : ℚ := subtotal + tax

/-- `calculateItemCount(items)`: sum of the item quantities
(`items.reduce((sum, item) => sum + item.quantity, 0)`), applied to the
layers store's item list. -/
def calculateItemCount (items : List CartItemL) : ℚ :=
  items.foldl (fun sum item => sum + item.quantity) 0

/-! ### The plain layers cart store
(`layers/cart/app/stores/cart/useCartStore.ts`).  The store mutates the
first item returned by `Array.prototype.find`; the pure embedding
rewrites exactly the first element satisfying the predicate. -/

/-- Apply `f` to the first element satisfying `p`, leave the rest
unchanged; the pure reading of `const it = items.find(p); if (it) mutate(it)`. -/
def updateFirstBy {α : Type} (p : α → Bool) (f : α → α) : List α → List α
  | [] => []
  | x :: xs => if p x then f x :: xs else x :: updateFirstBy p f xs

/-- `addItem(product)` of the layers store: increment the quantity of the
existing item with the same product id, else push `{ product, quantity: 1 }`. -/
def addItem (items : List CartItemL) (product : RawProduct) : List CartItemL :=
  if items.any (fun item => item.product.id == product.id) then
    updateFirstBy (fun item => item.product.id == product.id)
      (fun item => { item with quantity := item.quantity + 1 }) items
  else
    items ++ [{ product := product, quantity := 1 }]

/-- `removeItem(productId)` of the layers store:
`items.filter(item => item.product.id !== productId)`. -/
def removeItem (items : List CartItemL) (productId : String) : List CartItemL :=
  items.filter (fun item => item.product.id != productId)

/-- `updateQuantity(productId, quantity)` of the layers store: quantity ≤ 0
delegates to `removeItem`; otherwise the found item's quantity is
overwritten (absent id: no-op). -/
def updateQuantity (items : List CartItemL) (productId : String) (quantity : ℚ) :
    List CartItemL :=
  if quantity ≤ 0 then
    removeItem items productId
  else
    updateFirstBy (fun item => item.product.id == productId)
      (fun item => { item with quantity := quantity }) items

/-- `incrementItem(productId)` of the layers store: the found item's
quantity is incremented by one (absent id: no-op). -/
def incrementItem (items : List CartItemL) (productId : String) : List CartItemL :=
  updateFirstBy (fun item => item.product.id == productId)
    (fun item => { item with quantity := item.quantity + 1 }) items

/-- `decrementItem(productId)` of the layers store: absent id is a no-op;
quantity ≤ 1 removes the item; otherwise the quantity is decremented. -/
def decrementItem (items : List CartItemL) (productId : String) : List CartItemL :=
  match items.find? (fun item => item.product.id == productId) with
  | none => items
  | some item =>
    if item.quantity ≤ 1 then
      removeItem items productId
    else
      updateFirstBy (fun it => it.product.id == productId)
        (fun it => { it with quantity := it.quantity - 1 }) items

/-- `clearCart()` of the layers store. -/
def clearCart (_items : List CartItemL) : List CartItemL := []

/-- The message set of the layers cart store. -/
inductive CartOp
  | add (product : RawProduct)
  | remove (productId : String)
  | update (productId : String) (quantity : ℚ)
  | increment (productId : String)
  | decrement (productId : String)
  | clear
deriving Repr

/-- One dispatch of the layers store. -/
def applyOp (items : List CartItemL) : CartOp → List CartItemL
  | .add p => addItem items p
  | .remove pid => removeItem items pid
  | .update pid q => updateQuantity items pid q
  | .increment pid => incrementItem items pid
  | .decrement pid => decrementItem items pid
  | .clear => clearCart items

/-- Run a sequence of layers-store operations from the initially empty cart. -/
def runOps (ops : List CartOp) : List CartItemL :=
  ops.foldl applyOp []

/-! ### The validated feature cart store (second store of
`app/features/cart/stores` — `src/unnamed/part_014`): Zod-validated
`addItem`/`updateQuantity`, items carry a stored `subtotal`;
JavaScript `throw` is modelled as `Except.error`. -/

/-- `addItem(product)` of the validated store: rejects products failing
`ProductSchema`; increments the existing same-id item, recomputing its
subtotal from the INCOMING product's price
(`calculateItemSubtotal(product.price, existingItem.quantity)`); else
pushes `{ product, quantity: 1, subtotal: product.price }`. -/
def addItemV (items : List CartItemV) (product : RawProduct) :
    Except String (List CartItemV) :=
  if !productCheck product then
    .error "Cannot add invalid product to cart"
  else if items.any (fun item => item.product.id == product.id) then
    .ok (updateFirstBy (fun item => item.product.id == product.id)
      (fun item =>
        { item with
          quantity := item.quantity + 1
          subtotal := calculateItemSubtotal product.price (item.quantity + 1) }) items)
  else
    .ok (items ++ [{ product := product, quantity := 1, subtotal := product.price }])

/-- `removeItem(productId)` of the validated store: `findIndex` then
`splice(index, 1)` — removes the first matching item only. -/
def removeItemV (items : List CartItemV) (productId : String) : List CartItemV :=
  items.eraseP (fun item => item.product.id == productId)

/-- `updateQuantity(productId, quantity)` of the validated store: a
non-integer quantity throws before anything else; then quantity ≤ 0
delegates to `removeItem`; otherwise the found item's quantity and
subtotal are overwritten (absent id: no-op). -/
def updateQuantityV (items : List CartItemV) (productId : String) (quantity : ℚ) :
    Except String (List CartItemV) :=
  if !quantity.isInt then
    .error "Quantity must be an integer"
  else if quantity ≤ 0 then
    .ok (removeItemV items productId)
  else
    .ok (updateFirstBy (fun item => item.product.id == productId)
      (fun item =>
        { item with
          quantity := quantity
          subtotal := calculateItemSubtotal item.product.price quantity }) items)

/-- `incrementItem(productId)` of the validated store: wraps
`updateQuantity(productId, item.quantity + 1)` for the found item. -/
def incrementItemV (items : List CartItemV) (productId : String) :
    Except String (List CartItemV) :=
  match items.find? (fun item => item.product.id == productId) with
  | none => .ok items
  | some item => updateQuantityV items productId (item.quantity + 1)

/-- `decrementItem(productId)` of the validated store: wraps
`updateQuantity(productId, item.quantity - 1)` for the found item. -/
def decrementItemV (items : List CartItemV) (productId : String) :
    Except String (List CartItemV) :=
  match items.find? (fun item => item.product.id == productId) with
  | none => .ok items
  | some item => updateQuantityV items productId (item.quantity - 1)

/-- `clearCart()` of the validated store. -/
def clearCartV (_items : List CartItemV) : List CartItemV := []

/-- The message set of the validated cart store. -/
inductive CartOpV
  | add (product : RawProduct)
  | remove (productId : String)
  | update (productId : String) (quantity : ℚ)
  | increment (productId : String)
  | decrement (productId : String)
  | clear
deriving Repr

/-- One dispatch of the validated store.  A thrown error (`Except.error`)
leaves the state unchanged: the validated actions throw before mutating. -/
def applyOpV (items : List CartItemV) : CartOpV → List CartItemV
  | .add p => (addItemV items p).toOption.getD items
  | .remove pid => removeItemV items pid
  | .update pid q => (updateQuantityV items pid q).toOption.getD items
  | .increment pid => (incrementItemV items pid).toOption.getD items
  | .decrement pid => (decrementItemV items pid).toOption.getD items
  | .clear => clearCartV items

/-- Run a sequence of validated-store operations from the initially empty cart. -/
def runOpsV (ops : List CartOpV) : List CartItemV :=
  ops.foldl applyOpV []

/-! ### Storage hydration (`loadFromStorage` of
`layers/cart/app/stores/cart/useCartStore.ts`).  The persisted value is
modelled after `JSON.parse`: a JSON value tree; an absent key or a parse
failure is `none` (the shared `getItem` returns `null` for both). -/

/-- A parsed JSON value. -/
inductive JValue
  | null
  | bool (b : Bool)
  | num (q : ℚ)
  | str (s : String)
  | arr (elems : List JValue)
  | obj (fields : List (String × JValue))
deriving Repr

/-- Look up a field of a JSON object value (first occurrence). -/
def jGetField (v : JValue) (name : String) : Option JValue :=
  match v with
  | .obj fields => (fields.find? (fun f => f.1 == name)).map (·.2)
  | _ => none

/-- A JSON value as a string, when it is one. -/
def jString? : JValue → Option String
  | .str s => some s
  | _ => none

/-- A JSON value as a number, when it is one. -/
def jNum? : JValue → Option ℚ
  | .num q => some q
  | _ => none

/-- Structural decoding of a Product object (`z.object` shape of
`ProductSchema`): every required field present with the right primitive
type, `rating` optional. -/
def decodeProduct (v : JValue) : Option RawProduct := do
  let id ← (jGetField v "id").bind jString?
  let name ← (jGetField v "name").bind jString?
  let description ← (jGetField v "description").bind jString?
  let price ← (jGetField v "price").bind jNum?
  let category ← (jGetField v "category").bind jString?
  let image ← (jGetField v "image").bind jString?
  let stock ← (jGetField v "stock").bind jNum?
  let rating ← match jGetField v "rating" with
    | none => some none
    | some w => (jNum? w).map some
  pure { id, name, description, price, category, image, stock, rating }

/-- Decoding and validation of one cart item
(`CartItemSchema.safeParse` applied to an unknown JSON value): the shape
must decode and every schema constraint must hold. -/
def decodeCartItem (v : JValue) : Option CartItemV := do
  let product ← (jGetField v "product").bind decodeProduct
  let quantity ← (jGetField v "quantity").bind jNum?
  let subtotal ← (jGetField v "subtotal").bind jNum?
  let item : CartItemV := { product, quantity, subtotal }
  if cartItemCheck item then pure item else none

/-- `z.array(CartItemSchema).safeParse` applied to an unknown JSON value:
the value must be an array and every element must validate. -/
def parseCartItems (v : JValue) : Option (List CartItemV) :=
  match v with
  | .arr elems => elems.mapM decodeCartItem
  | _ => none

/-- Modelled from the spec: `getValidatedItem(key, schema, onError)` of the
shared storage utility is not under `src/` (only its callers and the
unvalidated `getItem` are).  Per the spec, the stored value is read and
validated against the schema; on validation failure the persisted value
is discarded, a diagnostic is emitted (the error callback), and `null` is
returned; an absent/unparseable value is simply `null`.  The second
component records whether the diagnostic was emitted. -/
def getValidatedItem (stored : Option JValue) :
    Option (List CartItemV) × Bool :=
  match stored with
  | none => (none, false)
  | some v =>
    match parseCartItems v with
    | some items => (some items, false)
    | none => (none, true)

/-- `loadFromStorage()` of the layers cart store: the validated stored
value replaces the (initially empty) item list only when present; the
diagnostic flag is carried along. -/
def loadFromStorage (stored : Option JValue) : List CartItemV × Bool :=
  match getValidatedItem stored with
  | (some items, d) => (items, d)
  | (none, d) => ([], d)

/-! ### Product filter/sort pipeline.  `filteredProducts` is from
`useProductsStore.ts`; the `filterProducts`/`sortProducts` utilities
(`utils/filters`) are not under `src/` and are modelled from the spec. -/

/-- A price-range filter bound. -/
structure PriceRange where
  min : ℚ
  max : ℚ
deriving DecidableEq, Repr

/-- `ProductFilter`: transient query object, every criterion optional. -/
structure ProductFilter where
  search : Option String
  category : Option String
  priceRange : Option PriceRange
  minRating : Option ℚ
  inStock : Option Bool
deriving Repr

/-- `ProductSort`: the sort enumeration. -/
inductive ProductSort
  | nameAsc
  | nameDesc
  | priceAsc
  | priceDesc
  | ratingDesc
deriving DecidableEq, Repr

/-- `needle` occurs as a contiguous run inside `haystack`. -/
def listContainsRun (needle : List Char) : List Char → Bool
  | [] => needle.isEmpty
  | c :: rest => needle.isPrefixOf (c :: rest) || listContainsRun needle rest

/-- Case-insensitive substring test. -/
def containsCI (haystack needle : String) : Bool :=
  listContainsRun needle.toLower.data haystack.toLower.data

/-- Modelled from the spec: the filter predicate of `filterProducts`
(`utils/filters`, not under `src/`) — all active criteria AND-ed: search
is a case-insensitive substring match against name or description
(absent/empty matches all); category matches exactly unless absent or
the sentinel `"all"`; priceRange is inclusive; minRating excludes
products with no rating; inStock, when true, requires stock > 0. -/
def matchesFilter (f : ProductFilter) (p : RawProduct) : Bool :=
  (match f.search with
   | none => true
   | some s => s.isEmpty || containsCI p.name s || containsCI p.description s) &&
  (match f.category with
   | none => true
   | some c => c == "all" || p.category == c) &&
  (match f.priceRange with
   | none => true
   | some r => decide (r.min ≤ p.price) && decide (p.price ≤ r.max)) &&
  (match f.minRating with
   | none => true
   | some m =>
     match p.rating with
     | none => false
     | some r => decide (m ≤ r)) &&
  (match f.inStock with
   | none => true
   | some b => !b || decide (0 < p.stock))

/-- Modelled from the spec: `filterProducts(products, filter)` keeps the
products matching the filter, in order, without mutating the source. -/
def filterProducts (products : List RawProduct) (f : ProductFilter) :
    List RawProduct :=
  products.filter (matchesFilter f)

/-- The "is less-or-equal" comparator of each sort mode: name is ordinal
lexicographic, price numeric, rating descending with a missing rating
ordered as 0. -/
def sortLE (s : ProductSort) (a b : RawProduct) : Bool :=
  match s with
  | .nameAsc => decide (a.name ≤ b.name)
  | .nameDesc => decide (b.name ≤ a.name)
  | .priceAsc => decide (a.price ≤ b.price)
  | .priceDesc => decide (b.price ≤ a.price)
  | .ratingDesc => decide (b.rating.getD 0 ≤ a.rating.getD 0)

/-- Modelled from the spec: `sortProducts(products, sort)` (`utils/filters`,
not under `src/`) — a stable sort of the product list under the selected
comparator. -/
def sortProducts (products : List RawProduct) (s : ProductSort) :
    List RawProduct :=
  products.mergeSort (sortLE s)

/-- The `filteredProducts` computed of `useProductsStore.ts`:
`sortProducts(filterProducts(products, currentFilter), currentSort)`. -/
def filteredProducts (products : List RawProduct) (f : ProductFilter)
    (s : ProductSort) : List RawProduct :=
  sortProducts (filterProducts products f) s

/-! ### Concrete fixtures used by the witness theorems. -/

/-- A valid catalog product (price 100 cents). -/
def productA : RawProduct :=
  { id := "1"
    name := "Wireless Headphones"
    description := "Premium noise-canceling wireless headphones"
    price := 100
    category := "electronics"
    image := "https://example.com/a.png"
    stock := 5
    rating := none }

/-- The same catalog entry after a later price change to 200 cents —
still a valid product, same id. -/
def productA2 : RawProduct := { productA with price := 200 }

/-- An invalid product: negative price. -/
def badProduct : RawProduct := { productA with price := -100 }

/-- A validated-store cart item holding the `productA` snapshot,
satisfying the `CartItemSchema` subtotal invariant. -/
def itemA : CartItemV := { product := productA, quantity := 1, subtotal := 100 }

/-- A layers-store cart item holding `productA`. -/
def itemL1 : CartItemL := { product := productA, quantity := 1 }

/-- The non-integer rational −3/2, given by its reduced representation. -/
def qNonInt : ℚ := ⟨-3, 2, by norm_num, by norm_num⟩

/-! ### Helper lemmas. -/

/-- Folding `+ quantity` over a list adds the sum of quantities. -/
theorem foldl_add_quantity (items : List CartItemL) (a : ℚ) :
    items.foldl (fun sum item => sum + item.quantity) a =
      a + (items.map (fun item => item.quantity)).sum := by
  induction items generalizing a with
  | nil => simp
  | cons x xs ih => simp [ih, add_assoc]

/-- Every element of `updateFirstBy p f l` is an old element, or `f`
applied to the first element satisfying `p`. -/
theorem mem_updateFirstBy_find {α : Type} (p : α → Bool) (f : α → α) :
    ∀ (l : List α) (x : α), x ∈ updateFirstBy p f l →
      x ∈ l ∨ ∃ y, l.find? p = some y ∧ x = f y := by
  intro l
  induction l with
  | nil => intro x hx; simp [updateFirstBy] at hx
  | cons a t ih =>
    intro x hx
    simp only [updateFirstBy] at hx
    by_cases hpa : p a
    · rw [if_pos hpa] at hx
      rcases List.mem_cons.mp hx with h | h
      · exact Or.inr ⟨a, by simp [List.find?_cons_of_pos, hpa], h⟩
      · exact Or.inl (List.mem_cons_of_mem _ h)
    · rw [if_neg hpa] at hx
      rcases List.mem_cons.mp hx with h | h
      · exact Or.inl (h ▸ List.mem_cons_self a t)
      · rcases ih x h with h' | ⟨y, hy, hxy⟩
        · exact Or.inl (List.mem_cons_of_mem _ h')
        · refine Or.inr ⟨y, ?_, hxy⟩
          rw [List.find?_cons_of_neg _ (by simpa using hpa)]
          exact hy

/-- `updateFirstBy` is the identity when no element satisfies the predicate. -/
theorem updateFirstBy_eq_self {α : Type} (p : α → Bool) (f : α → α)
    (l : List α) (h : ∀ x ∈ l, p x = false) : updateFirstBy p f l = l := by
  induction l with
  | nil => rfl
  | cons a t ih =>
    simp only [updateFirstBy]
    rw [if_neg (by simp [h a (List.mem_cons_self a t)]),
      ih (fun x hx => h x (List.mem_cons_of_mem _ hx))]

/-- `updateFirstBy` with a product-preserving function keeps the list of
product ids unchanged. -/
theorem map_pid_updateFirstBy (p : CartItemV → Bool) (f : CartItemV → CartItemV)
    (hf : ∀ x, (f x).product = x.product) (l : List CartItemV) :
    (updateFirstBy p f l).map (fun item => item.product.id) =
      l.map (fun item => item.product.id) := by
  induction l with
  | nil => rfl
  | cons a t ih =>
    simp only [updateFirstBy]
    by_cases hpa : p a
    · rw [if_pos hpa]; simp [hf]
    · rw [if_neg hpa]; simp [ih]

/-- Every layers-store operation preserves strict positivity of all
quantities in the cart. -/
theorem allPos_applyOp (items : List CartItemL)
    (h : ∀ item ∈ items, 0 < item.quantity) (op : CartOp) :
    ∀ item ∈ applyOp items op, 0 < item.quantity := by
  cases op with
  | add p =>
    intro it hit
    simp only [applyOp, addItem] at hit
    by_cases hany : items.any (fun item => item.product.id == p.id)
    · rw [if_pos hany] at hit
      rcases mem_updateFirstBy_find _ _ _ _ hit with hmem | ⟨y, hy, rfl⟩
      · exact h it hmem
      · have hpos := h y (List.mem_of_find?_eq_some hy)
        simpa using by linarith
    · rw [if_neg hany] at hit
      rcases List.mem_append.mp hit with hmem | hmem
      · exact h it hmem
      · simp only [List.mem_singleton] at hmem
        subst hmem; norm_num
  | remove pid =>
    intro it hit
    simp only [applyOp, removeItem] at hit
    exact h it (List.mem_of_mem_filter hit)
  | update pid q =>
    intro it hit
    simp only [applyOp, updateQuantity] at hit
    by_cases hq : q ≤ 0
    · rw [if_pos hq] at hit
      simp only [removeItem] at hit
      exact h it (List.mem_of_mem_filter hit)
    · rw [if_neg hq] at hit
      rcases mem_updateFirstBy_find _ _ _ _ hit with hmem | ⟨y, hy, rfl⟩
      · exact h it hmem
      · simpa using lt_of_not_le hq
  | increment pid =>
    intro it hit
    simp only [applyOp, incrementItem] at hit
    rcases mem_updateFirstBy_find _ _ _ _ hit with hmem | ⟨y, hy, rfl⟩
    · exact h it hmem
    · have hpos := h y (List.mem_of_find?_eq_some hy)
      simpa using by linarith
  | decrement pid =>
    intro it hit
    simp only [applyOp, decrementItem] at hit
    cases hfind : items.find? (fun item => item.product.id == pid) with
    | none => rw [hfind] at hit; exact h it hit
    | some found =>
      rw [hfind] at hit
      dsimp only at hit
      by_cases hle : found.quantity ≤ 1
      · rw [if_pos hle] at hit
        simp only [removeItem] at hit
        exact h it (List.mem_of_mem_filter hit)
      · rw [if_neg hle] at hit
        rcases mem_updateFirstBy_find _ _ _ _ hit with hmem | ⟨y, hy, rfl⟩
        · exact h it hmem
        · rw [hfind] at hy
          injection hy with hy
          subst hy
          have : (1 : ℚ) < found.quantity := lt_of_not_le hle
          simpa using by linarith
  | clear =>
    intro it hit
    simp [applyOp, clearCart] at hit

/-- Positivity of quantities is preserved along any operation sequence. -/
theorem allPos_foldl (ops : List CartOp) :
    ∀ (items : List CartItemL), (∀ item ∈ items, 0 < item.quantity) →
      ∀ item ∈ ops.foldl applyOp items, 0 < item.quantity := by
  induction ops with
  | nil => intro items h; simpa
  | cons op rest ih =>
    intro items h
    exact ih _ (allPos_applyOp items h op)

/-- `removeItemV` keeps product-id distinctness. -/
theorem nodup_ids_removeItemV (items : List CartItemV) (pid : String)
    (h : (items.map (fun item => item.product.id)).Nodup) :
    ((removeItemV items pid).map (fun item => item.product.id)).Nodup :=
  h.sublist ((items.eraseP_sublist).map (fun item => item.product.id))

/-- Running `updateQuantityV` (errors leaving the state in place) keeps
product-id distinctness. -/
theorem nodup_ids_updateQuantityV (items : List CartItemV) (pid : String) (q : ℚ)
    (h : (items.map (fun item => item.product.id)).Nodup) :
    (((updateQuantityV items pid q).toOption.getD items).map
      (fun item => item.product.id)).Nodup := by
  by_cases hint : q.isInt
  · by_cases hq : q ≤ 0
    · simpa [updateQuantityV, hint, hq, Except.toOption] using
        nodup_ids_removeItemV items pid h
    · have hrw := map_pid_updateFirstBy (fun item => item.product.id == pid)
        (fun item =>
          { item with
            quantity := q
            subtotal := calculateItemSubtotal item.product.price q })
        (fun x => rfl) items
      simpa [updateQuantityV, hint, hq, Except.toOption, hrw] using h
  · simpa [updateQuantityV, hint, Except.toOption] using h

/-- Every validated-store dispatch keeps product-id distinctness. -/
theorem nodup_ids_applyOpV (items : List CartItemV)
    (h : (items.map (fun item => item.product.id)).Nodup) (op : CartOpV) :
    ((applyOpV items op).map (fun item => item.product.id)).Nodup := by
  cases op with
  | add p =>
    simp only [applyOpV, addItemV]
    by_cases hcheck : productCheck p
    · simp only [hcheck, Bool.not_true, Bool.false_eq_true, if_false]
      by_cases hany : items.any (fun item => item.product.id == p.id)
      · have hrw := map_pid_updateFirstBy (fun item => item.product.id == p.id)
          (fun item =>
            { item with
              quantity := item.quantity + 1
              subtotal := calculateItemSubtotal p.price (item.quantity + 1) })
          (fun x => rfl) items
        simpa [hany, Except.toOption, hrw] using h
      · simp only [hany, Bool.false_eq_true, if_false, Except.toOption,
          Option.getD_some, List.map_append, List.map_cons, List.map_nil]
        rw [List.nodup_append]
        refine ⟨h, List.nodup_singleton _, ?_⟩
        intro x hx hx'
        simp only [List.mem_singleton] at hx'
        subst hx'
        rcases List.mem_map.mp hx with ⟨item, hmem, hid⟩
        simp only [Bool.not_eq_true] at hany
        rw [List.any_eq_false] at hany
        exact absurd (by simpa using hid) (by simpa using hany item hmem)
    · simpa [hcheck, Except.toOption] using h
  | remove pid => exact nodup_ids_removeItemV items pid h
  | update pid q => exact nodup_ids_updateQuantityV items pid q h
  | increment pid =>
    simp only [applyOpV, incrementItemV]
    cases hfind : items.find? (fun item => item.product.id == pid) with
    | none => simpa [Except.toOption] using h
    | some found => exact nodup_ids_updateQuantityV items pid (found.quantity + 1) h
  | decrement pid =>
    simp only [applyOpV, decrementItemV]
    cases hfind : items.find? (fun item => item.product.id == pid) with
    | none => simpa [Except.toOption] using h
    | some found => exact nodup_ids_updateQuantityV items pid (found.quantity - 1) h
  | clear => simp [applyOpV, clearCartV]

/-- Product-id distinctness is preserved along any validated-store
operation sequence. -/
theorem nodup_ids_foldl (ops : List CartOpV) :
    ∀ (items : List CartItemV), (items.map (fun item => item.product.id)).Nodup →
      ((ops.foldl applyOpV items).map (fun item => item.product.id)).Nodup := by
  induction ops with
  | nil => intro items h; simpa
  | cons op rest ih =>
    intro items h
    exact ih _ (nodup_ids_applyOpV items h op)

/-! ### Claim theorems. -/

/-- C1: for every sequence of cart operations applied to an initially
empty cart, the derived `itemCount` equals the sum of the quantity
fields of the items, and no item with quantity ≤ 0 is ever present in
the list after any operation completes. -/
theorem cart_itemCount_eq_sum_and_quantities_positive (ops : List CartOp) :
    calculateItemCount (runOps ops) =
      ((runOps ops).map (fun item => item.quantity)).sum ∧
    ∀ item ∈ runOps ops, 0 < item.quantity := by
  constructor
  · simpa [calculateItemCount] using foldl_add_quantity (runOps ops) 0
  · have h : ∀ item ∈ ([] : List CartItemL), 0 < item.quantity := by simp
    simpa [runOps] using allPos_foldl ops [] h

/-- C4: `updateQuantity` with a non-positive quantity produces the same
item list as `removeItem`; `updateQuantity` on an id not in the cart
with a positive quantity is a no-op. -/
theorem updateQuantity_nonpos_removes_and_unknown_id_noop
    (items : List CartItemL) (pid pid' : String) (q q' : ℚ)
    (hq : q ≤ 0) (hq' : 0 < q')
    (habs : ∀ item ∈ items, item.product.id ≠ pid') :
    updateQuantity items pid q = removeItem items pid ∧
    updateQuantity items pid' q' = items := by
  constructor
  · simp [updateQuantity, hq]
  · rw [updateQuantity, if_neg (not_le_of_lt hq')]
    exact updateFirstBy_eq_self _ _ items
      (fun item hmem => by simpa using habs item hmem)

/-- Witness for C4 at a concrete cart: quantity 0 removes, and an
unknown id with quantity 5 leaves the cart unchanged. -/
theorem updateQuantity_nonpos_removes_and_unknown_id_noop_witness :
    updateQuantity [itemL1] "1" 0 = removeItem [itemL1] "1" ∧
    updateQuantity [itemL1] "2" 5 = [itemL1] :=
  updateQuantity_nonpos_removes_and_unknown_id_noop [itemL1] "1" "2" 0 5
    (le_refl 0) (by norm_num) (by decide)

/-- C5: `calculateTax` is rounding of 10% of the subtotal to the nearest
integer minor unit (round half up, which on non-negative inputs is round
half away from zero), with the spec's three sample points, and
`calculateTotal` is addition. -/
theorem calculateTax_rounds_and_calculateTotal_adds :
    (∀ s : ℕ, calculateTax s = ((round ((s : ℚ) * TAX_RATE) : ℤ) : ℚ)) ∧
    calculateTax 1999 = 200 ∧ calculateTax 10 = 1 ∧ calculateTax 0 = 0 ∧
    ∀ s t : ℚ, calculateTotal s t = s + t := by
  refine ⟨fun s => ?_, ?_, ?_, ?_, fun s t => rfl⟩
  · rw [calculateTax, jsMathRound, round_eq]
  · norm_num [calculateTax, jsMathRound, TAX_RATE]
  · norm_num [calculateTax, jsMathRound, TAX_RATE]
  · norm_num [calculateTax, jsMathRound, TAX_RATE]

/-- C7: `CartItemSchema` validation succeeds exactly when the structural
field constraints hold and the stored subtotal equals
`product.price × quantity`; any other subtotal is a validation failure. -/
theorem cartItemCheck_iff_struct_and_subtotal_exact (c : CartItemV) :
    cartItemCheck c = true ↔
      (cartItemStructCheck c = true ∧
        c.subtotal = c.product.price * c.quantity) := by
  simp [cartItemCheck]

/-- C9: the derived `filteredProducts` is `sortProducts` applied after
`filterProducts` — filtering before sorting — and the sort only permutes,
never changing which products are included. -/
theorem filteredProducts_is_sort_after_filter (products : List RawProduct)
    (f : ProductFilter) (s : ProductSort) :
    filteredProducts products f s = sortProducts (filterProducts products f) s ∧
    (filteredProducts products f s).Perm (filterProducts products f) := by
  exact ⟨rfl, List.mergeSort_perm _ _⟩

/-- C3: `addItem` of the validated store throws on a product failing
`ProductSchema` and the cart state is unchanged by value. -/
theorem addItemV_rejects_invalid_product (items : List CartItemV)
    (p : RawProduct) (h : productCheck p = false) :
    addItemV items p = .error "Cannot add invalid product to cart" ∧
    applyOpV items (.add p) = items := by
  have herr : addItemV items p = .error "Cannot add invalid product to cart" := by
    simp [addItemV, h]
  exact ⟨herr, by simp [applyOpV, herr, Except.toOption]⟩

/-- Witness for C3: a product with a negative price is rejected and the
cart keeps its single item. -/
theorem addItemV_rejects_invalid_product_witness :
    productCheck badProduct = false ∧
    (addItemV [itemA] badProduct = .error "Cannot add invalid product to cart" ∧
      applyOpV [itemA] (.add badProduct) = [itemA]) :=
  ⟨by decide, addItemV_rejects_invalid_product [itemA] badProduct (by decide)⟩

/-- C10: `updateQuantity` of the validated store throws on any
non-integer quantity before the non-positive removal branch runs, and
the cart state is unchanged by value. -/
theorem updateQuantityV_non_integer_throws (items : List CartItemV)
    (pid : String) (q : ℚ) (h : q.isInt = false) :
    updateQuantityV items pid q = .error "Quantity must be an integer" ∧
    applyOpV items (.update pid q) = items := by
  have herr : updateQuantityV items pid q = .error "Quantity must be an integer" := by
    simp [updateQuantityV, h]
  exact ⟨herr, by simp [applyOpV, herr, Except.toOption]⟩

/-- Witness for C10: the negative non-integer −3/2 applied to an item
that is present raises instead of removing the item. -/
theorem updateQuantityV_non_integer_throws_witness :
    qNonInt.isInt = false ∧ qNonInt < 0 ∧ itemA.product.id = "1" ∧
    (updateQuantityV [itemA] "1" qNonInt = .error "Quantity must be an integer" ∧
      applyOpV [itemA] (.update "1" qNonInt) = [itemA]) :=
  ⟨rfl, by
    have h : (0 : ℚ) < -qNonInt := by
      rw [← Rat.num_pos, Rat.num_neg_eq_neg_num]
      norm_num [qNonInt]
    exact neg_pos.mp h, rfl,
    updateQuantityV_non_integer_throws [itemA] "1" qNonInt rfl⟩

/-- C8: a structurally invalid persisted cart value is discarded on
load: the cart starts empty, a diagnostic is emitted, and no error is
thrown (the loader is a total function). -/
theorem loadFromStorage_discards_invalid (v : JValue)
    (h : parseCartItems v = none) :
    loadFromStorage (some v) = ([], true) := by
  simp [loadFromStorage, getValidatedItem, h]

/-- Witness for C8: loading the stored array `[5]` (not CartItem-shaped)
yields the empty cart with the diagnostic emitted. -/
theorem loadFromStorage_discards_invalid_witness :
    parseCartItems (JValue.arr [JValue.num 5]) = none ∧
    loadFromStorage (some (JValue.arr [JValue.num 5])) = ([], true) :=
  ⟨rfl, loadFromStorage_discards_invalid _ rfl⟩

/-- C6: adding a valid product twice to the empty validated cart yields
exactly one item with quantity 2 and subtotal 2 × price, and no sequence
of validated-store operations ever produces two items with the same
product id. -/
theorem addItemV_twice_merges_and_ids_nodup (p : RawProduct)
    (h : productCheck p = true) (ops : List CartOpV) :
    ((addItemV [] p).bind fun items => addItemV items p) =
      .ok [{ product := p, quantity := 2, subtotal := p.price * 2 }] ∧
    ((runOpsV ops).map (fun item => item.product.id)).Nodup := by
  constructor
  · have h1 : addItemV [] p =
        .ok [{ product := p, quantity := 1, subtotal := p.price }] := by
      simp [addItemV, h]
    rw [h1]
    show addItemV [{ product := p, quantity := 1, subtotal := p.price }] p = _
    simp [addItemV, h, updateFirstBy, calculateItemSubtotal]
    norm_num
  · exact nodup_ids_foldl ops [] (by simp)

/-- Witness for C6 at a concrete product and operation sequence. -/
theorem addItemV_twice_merges_and_ids_nodup_witness :
    productCheck productA = true ∧
    (((addItemV [] productA).bind fun items => addItemV items productA) =
        .ok [{ product := productA, quantity := 2, subtotal := productA.price * 2 }] ∧
      ((runOpsV [.add productA, .increment "1", .remove "9"]).map
        (fun item => item.product.id)).Nodup) :=
  ⟨by decide, addItemV_twice_merges_and_ids_nodup productA (by decide)
    [.add productA, .increment "1", .remove "9"]⟩

/-- C2 evaluated at the failing input: the cart holds a schema-valid
item with the price-100 snapshot; adding the same product after a
catalog price change to 200 leaves the snapshot unchanged but recomputes
the stored subtotal from the incoming price (2 × 200 = 400), which
differs from snapshot price × quantity (2 × 100 = 200) and fails the
store's own `CartItemSchema`. -/
theorem addItemV_price_change_corrupts_subtotal :
    cartItemCheck itemA = true ∧
    productCheck productA2 = true ∧
    productA2.id = productA.id ∧
    addItemV [itemA] productA2 =
      .ok [{ product := productA, quantity := 2, subtotal := 400 }] ∧
    productA.price * 2 = 200 ∧ (400 : ℚ) ≠ 200 ∧
    cartItemCheck { product := productA, quantity := 2, subtotal := 400 } = false := by
  refine ⟨?_, by decide, rfl, ?_, by norm_num [productA], by norm_num, ?_⟩
  · simp [cartItemCheck, cartItemStructCheck, itemA, productA, productCheck,
      productCategoryCheck, isValidURL, breakOnRun, Rat.isInt]
    decide
  · have h2 : productCheck productA2 = true := by decide
    simp only [addItemV, h2, Bool.not_true, Bool.false_eq_true, if_false]
    simp [itemA, productA, productA2, updateFirstBy, calculateItemSubtotal]
    norm_num
  · have hfalse : decide ((400 : ℚ) = productA.price * 2) = false := by
      norm_num [productA]
    simp [cartItemCheck, hfalse]
